import Mathlib

/-!
Verification of the risk-scoring and aggregation logic of the
security-posture tracking backend (handlers under `src/server/src/handlers`
and the concatenated modules of the same server).

Embedding conventions:
* JavaScript numbers are modelled as exact rationals (`ℚ`).  The product's
  own documentation demands drift-free decimal results (it rejects any
  floating-point drift such as 99.99 for 100), so exact rational arithmetic
  is the intended semantics of every formula modelled here.
* `Math.round` on a non-negative number rounds half away from zero, i.e.
  half-up: it is `⌊x + 1/2⌋`.
* Timestamps are abstract integers (a day count); `new Date()` becomes an
  explicit `now : ℤ` parameter, and the 30-day dashboard window becomes
  `now - 30`.
* The relational store is a record of lists of rows; `serial` primary keys
  become an explicit `newId` parameter on inserts.
* A store failure inside the fire-and-forget container recompute step is
  modelled by a boolean `recomputeFails` parameter: `true` means the
  store raised during that step, and the handler then does exactly what its
  `try`/`catch` structure does with the exception.
-/

/-- Severity enum of the database schema (`severity_level`). -/
inductive Severity
  | Critical
  | High
  | Medium
  | Low
deriving DecidableEq, Repr

/-- Status enum of issues and violations (`issue_status`); `InProgress`
stands for the string `In-progress`. -/
inductive IssueStatus
  | Open
  | InProgress
  | Closed
  | Resolved
deriving DecidableEq, Repr

/-- Classification enum of issues (`issue_classification`). -/
inductive Classification
  | Vulnerability
  | Misconfiguration
  | Weakness
  | Exposure
deriving DecidableEq, Repr

/-- Hierarchy enum of issues (`issue_hierarchy`). -/
inductive Hierarchy
  | Epic
  | Story
  | Task
deriving DecidableEq, Repr

/-- Container type enum (`container_type`). -/
inductive ContainerType
  | Project
  | Application
  | System
  | Service
deriving DecidableEq, Repr

/-- Violation type enum (`violation_type`). -/
inductive ViolationType
  | SecurityBreach
  | PolicyViolation
  | ComplianceIssue
  | DataLeak
deriving DecidableEq, Repr

/-- Control implementation status enum (`control_status`). -/
inductive ControlStatus
  | Existing
  | Planned
  | NotSpecified
deriving DecidableEq, Repr

/-- User role enum (`user_role`). -/
inductive UserRole
  | Admin
  | SecurityAnalyst
  | SecurityManager
  | Viewer
deriving DecidableEq, Repr

/-- JavaScript `Math.round` on a non-negative number: round half up. -/
def jsRound (x : ℚ) : ℤ :=
  ⌊x + 1/2⌋

/-- The `Math.round(x * 100) / 100` idiom: round to 2 decimal places. -/
def round2 (x : ℚ) : ℚ :=
  (jsRound (x * 100) : ℚ) / 100

namespace CreateIssue

/-- Translation of `calculateRiskScore` inside
`src/server/src/handlers/create_security_issue.ts` (lines 9-34): weights
0.25 / 0.25 / 0.20 / 0.15 / 0.15 and `Math.round` to a whole number. -/
def calculateRiskScore (confidentiality integrity availability compliance thirdParty : ℚ) : ℚ :=
  let weightedScore :=
    confidentiality * (25/100) + integrity * (25/100) + availability * (20/100) +
      compliance * (15/100) + thirdParty * (15/100)
  (jsRound weightedScore : ℚ)

end CreateIssue

namespace UpdateIssue

/-- Translation of `calculateRiskScore` in the update-issue module (the
concatenated server source, `updateSecurityIssue` module lines 7-27):
weights 0.25 / 0.25 / 0.25 / 0.15 / 0.10 and rounding to 2 decimals. -/
def calculateRiskScore (confidentiality integrity availability compliance thirdParty : ℚ) : ℚ :=
  let ciaWeight : ℚ := 25/100
  let complianceWeight : ℚ := 15/100
  let thirdPartyWeight : ℚ := 1/10
  let riskScore :=
    confidentiality * ciaWeight + integrity * ciaWeight + availability * ciaWeight +
      compliance * complianceWeight + thirdParty * thirdPartyWeight
  round2 riskScore

end UpdateIssue

/-- Modelled from the spec formula text: half-up rounding to 2 decimal
places, written independently of the source translation. -/
def specRound2 (x : ℚ) : ℚ :=
  ((⌊100 * x + 1/2⌋ : ℤ) : ℚ) / 100

/-- Modelled from the spec formula text of section 4.1:
`score = 0.25·C + 0.25·I + 0.25·A + 0.15·Compl + 0.10·ThirdParty`,
rounded half-up to 2 decimal places. -/
def specRiskScore (c i a compl tp : ℚ) : ℚ :=
  specRound2 ((25/100) * c + (25/100) * i + (25/100) * a + (15/100) * compl + (10/100) * tp)

/-- Row of the `users` table. -/
structure User where
  id : ℤ
  username : String
  email : String
  full_name : String
  role : UserRole
  created_at : ℤ
  updated_at : ℤ
  is_active : Bool
deriving DecidableEq, Repr

/-- Row of the `containers` table. -/
structure Container where
  id : ℤ
  name : String
  description : Option String
  type : ContainerType
  risk_score : ℚ
  external_id : Option String
  external_system : Option String
  created_by : ℤ
  created_at : ℤ
  updated_at : ℤ
  is_active : Bool
deriving DecidableEq, Repr

/-- Row of the `security_issues` table. -/
structure SecurityIssue where
  id : ℤ
  title : String
  description : String
  severity : Severity
  status : IssueStatus
  classification : Classification
  hierarchy : Hierarchy
  risk_score : ℚ
  confidentiality_impact : ℚ
  integrity_impact : ℚ
  availability_impact : ℚ
  compliance_impact : ℚ
  third_party_risk : ℚ
  mitre_attack_id : Option String
  mitre_attack_tactic : Option String
  mitre_attack_technique : Option String
  linddun_category : Option String
  attack_complexity : Option String
  threat_modeling_notes : Option String
  compensating_controls : Option String
  container_id : ℤ
  parent_issue_id : Option ℤ
  assigned_to : Option ℤ
  created_by : ℤ
  created_at : ℤ
  updated_at : ℤ
  is_automated_finding : Bool
deriving DecidableEq, Repr

/-- Row of the `security_violations` table. -/
structure SecurityViolation where
  id : ℤ
  title : String
  description : String
  violation_type : ViolationType
  severity : Severity
  status : IssueStatus
  incident_date : ℤ
  detection_method : Option String
  affected_systems : Option String
  impact_assessment : Option String
  remediation_steps : Option String
  container_id : Option ℤ
  related_issue_id : Option ℤ
  assigned_to : Option ℤ
  created_by : ℤ
  created_at : ℤ
  updated_at : ℤ
deriving DecidableEq, Repr

/-- Row of the `security_controls` table. -/
structure SecurityControl where
  id : ℤ
  name : String
  description : Option String
  control_type : String
  implementation_status : ControlStatus
  effectiveness_rating : Option ℚ
  framework_reference : Option String
  control_family : Option String
  container_id : ℤ
  created_by : ℤ
  created_at : ℤ
  updated_at : ℤ
  is_active : Bool
deriving DecidableEq, Repr

/-- The relational store: one list of rows per table the claims touch. -/
structure DB where
  users : List User
  containers : List Container
  issues : List SecurityIssue
  violations : List SecurityViolation
  controls : List SecurityControl
deriving DecidableEq, Repr

/-- Validated input of `createSecurityIssue` (zod schema
`createSecurityIssueInputSchema`). -/
structure CreateSecurityIssueInput where
  title : String
  description : String
  severity : Severity
  classification : Classification
  hierarchy : Hierarchy
  confidentiality_impact : ℚ
  integrity_impact : ℚ
  availability_impact : ℚ
  compliance_impact : ℚ
  third_party_risk : ℚ
  mitre_attack_id : Option String
  mitre_attack_tactic : Option String
  mitre_attack_technique : Option String
  linddun_category : Option String
  attack_complexity : Option String
  threat_modeling_notes : Option String
  compensating_controls : Option String
  container_id : ℤ
  parent_issue_id : Option ℤ
  assigned_to : Option ℤ
  created_by : ℤ
  is_automated_finding : Bool
deriving DecidableEq, Repr

/-- Validated input of `updateSecurityIssue` (zod schema
`updateSecurityIssueInputSchema`).  Every field but `id` is optional, and a
nullable field that is present carries an inner `Option`.  The schema has no
entry for `container_id`, `hierarchy`, `parent_issue_id`, `created_by`,
`created_at` or `is_automated_finding`, so this structure has none either. -/
structure UpdateSecurityIssueInput where
  id : ℤ
  title : Option String
  description : Option String
  severity : Option Severity
  status : Option IssueStatus
  classification : Option Classification
  confidentiality_impact : Option ℚ
  integrity_impact : Option ℚ
  availability_impact : Option ℚ
  compliance_impact : Option ℚ
  third_party_risk : Option ℚ
  mitre_attack_id : Option (Option String)
  mitre_attack_tactic : Option (Option String)
  mitre_attack_technique : Option (Option String)
  linddun_category : Option (Option String)
  attack_complexity : Option (Option String)
  threat_modeling_notes : Option (Option String)
  compensating_controls : Option (Option String)
  assigned_to : Option (Option ℤ)
deriving DecidableEq, Repr

/-- Validated input of `createSecurityViolation` (zod schema
`createSecurityViolationInputSchema`). -/
structure CreateSecurityViolationInput where
  title : String
  description : String
  violation_type : ViolationType
  severity : Severity
  incident_date : ℤ
  detection_method : Option String
  affected_systems : Option String
  impact_assessment : Option String
  remediation_steps : Option String
  container_id : Option ℤ
  related_issue_id : Option ℤ
  assigned_to : Option ℤ
  created_by : ℤ
deriving DecidableEq, Repr

/-- Lookup of a container row by id, as the handlers' `where(eq(id, ...))`
single-row reads do. -/
def findContainer (st : DB) (cid : ℤ) : Option Container :=
  st.containers.find? (fun c => c.id == cid)

/-- Lookup of an issue row by id. -/
def findIssue (st : DB) (iid : ℤ) : Option SecurityIssue :=
  st.issues.find? (fun i => i.id == iid)

/-- The issues of one container (`where(eq(container_id, cid))`). -/
def issuesOf (issues : List SecurityIssue) (cid : ℤ) : List SecurityIssue :=
  issues.filter (fun i => i.container_id == cid)

/-- SQL `AVG(risk_score)` over the issues of a container, with the
handlers' `|| 0` null-coalescing when the container has no issues. -/
def meanRisk (issues : List SecurityIssue) (cid : ℤ) : ℚ :=
  if (issuesOf issues cid).isEmpty then 0
  else ((issuesOf issues cid).map (fun i => i.risk_score)).sum / ((issuesOf issues cid).length : ℚ)

namespace CreateIssue

/-- The row inserted by `createSecurityIssue` (lines 45-72 of
`create_security_issue.ts`): the insert omits `status`, so the schema
default `Open` applies, and `created_at`/`updated_at` default to now. -/
def mkIssue (input : CreateSecurityIssueInput) (newId now : ℤ) : SecurityIssue :=
  { id := newId
    title := input.title
    description := input.description
    severity := input.severity
    status := IssueStatus.Open
    classification := input.classification
    hierarchy := input.hierarchy
    risk_score := calculateRiskScore input.confidentiality_impact input.integrity_impact
      input.availability_impact input.compliance_impact input.third_party_risk
    confidentiality_impact := input.confidentiality_impact
    integrity_impact := input.integrity_impact
    availability_impact := input.availability_impact
    compliance_impact := input.compliance_impact
    third_party_risk := input.third_party_risk
    mitre_attack_id := input.mitre_attack_id
    mitre_attack_tactic := input.mitre_attack_tactic
    mitre_attack_technique := input.mitre_attack_technique
    linddun_category := input.linddun_category
    attack_complexity := input.attack_complexity
    threat_modeling_notes := input.threat_modeling_notes
    compensating_controls := input.compensating_controls
    container_id := input.container_id
    parent_issue_id := input.parent_issue_id
    assigned_to := input.assigned_to
    created_by := input.created_by
    created_at := now
    updated_at := now
    is_automated_finding := input.is_automated_finding }

/-- Translation of `createSecurityIssue`
(`src/server/src/handlers/create_security_issue.ts`).  The insert always
runs; the subsequent container-average recompute (lines 76-92) sits inside
the same `try` block, so when the store fails there the outer `catch`
rethrows after the issue row is already persisted. -/
def createSecurityIssue (input : CreateSecurityIssueInput) (st : DB) (newId now : ℤ)
    (recomputeFails : Bool) : DB × Except String SecurityIssue :=
  let securityIssue := mkIssue input newId now
  let st1 : DB := { st with issues := st.issues ++ [securityIssue] }
  if recomputeFails then
    (st1, Except.error "Security issue creation failed")
  else
    let avgRisk := meanRisk st1.issues input.container_id
    let st2 : DB := { st1 with
      containers := st1.containers.map (fun c =>
        if c.id == input.container_id then { c with risk_score := avgRisk, updated_at := now }
        else c) }
    (st2, Except.ok securityIssue)

end CreateIssue

namespace UpdateIssue

/-- Translation of the file-local `updateContainerRiskScore` of the
update-issue module (lines 30-51): average over ALL issues of the
container, rounded to 2 decimals; its own `try`/`catch` swallows a store
failure, leaving the container row untouched. -/
def updateContainerRiskScore (containerId : ℤ) (st : DB) (now : ℤ) (fails : Bool) : DB :=
  if fails then st
  else
    let roundedRiskScore := round2 (meanRisk st.issues containerId)
    { st with
      containers := st.containers.map (fun c =>
        if c.id == containerId then { c with risk_score := roundedRiskScore, updated_at := now }
        else c) }

/-- The `impactChanged` test of `updateSecurityIssue` (lines 88-93). -/
def impactChanged (input : UpdateSecurityIssueInput) : Bool :=
  input.confidentiality_impact.isSome || input.integrity_impact.isSome ||
    input.availability_impact.isSome || input.compliance_impact.isSome ||
    input.third_party_risk.isSome

/-- The row written by `updateSecurityIssue` (lines 67-127): provided
fields replace stored ones, `updated_at` refreshes, and when any impact
dimension is provided the risk score is recomputed from the mix of new and
stored dimension values. -/
def mergedIssue (input : UpdateSecurityIssueInput) (current : SecurityIssue) (now : ℤ) :
    SecurityIssue :=
  let confidentiality := input.confidentiality_impact.getD current.confidentiality_impact
  let integrity := input.integrity_impact.getD current.integrity_impact
  let availability := input.availability_impact.getD current.availability_impact
  let compliance := input.compliance_impact.getD current.compliance_impact
  let thirdParty := input.third_party_risk.getD current.third_party_risk
  { current with
    updated_at := now
    title := input.title.getD current.title
    description := input.description.getD current.description
    severity := input.severity.getD current.severity
    status := input.status.getD current.status
    classification := input.classification.getD current.classification
    assigned_to := input.assigned_to.getD current.assigned_to
    mitre_attack_id := input.mitre_attack_id.getD current.mitre_attack_id
    mitre_attack_tactic := input.mitre_attack_tactic.getD current.mitre_attack_tactic
    mitre_attack_technique := input.mitre_attack_technique.getD current.mitre_attack_technique
    linddun_category := input.linddun_category.getD current.linddun_category
    attack_complexity := input.attack_complexity.getD current.attack_complexity
    threat_modeling_notes := input.threat_modeling_notes.getD current.threat_modeling_notes
    compensating_controls := input.compensating_controls.getD current.compensating_controls
    confidentiality_impact := confidentiality
    integrity_impact := integrity
    availability_impact := availability
    compliance_impact := compliance
    third_party_risk := thirdParty
    risk_score :=
      if impactChanged input then
        calculateRiskScore confidentiality integrity availability compliance thirdParty
      else current.risk_score }

/-- Translation of `updateSecurityIssue` of the update-issue module
(lines 53-157): read the current row, fail when it is missing, write the
merged row, and when an impact dimension changed run the fire-and-forget
container recompute. -/
def updateSecurityIssue (input : UpdateSecurityIssueInput) (st : DB) (now : ℤ)
    (recomputeFails : Bool) : DB × Except String SecurityIssue :=
  match findIssue st input.id with
  | none => (st, Except.error ("Security issue with id " ++ toString input.id ++ " not found"))
  | some current =>
    let updatedIssue := mergedIssue input current now
    let st1 : DB := { st with
      issues := st.issues.map (fun i => if i.id == input.id then updatedIssue else i) }
    let st2 :=
      if impactChanged input then updateContainerRiskScore updatedIssue.container_id st1 now recomputeFails
      else st1
    (st2, Except.ok updatedIssue)

end UpdateIssue

/-- Severity weight table of `updateContainerRiskScore`
(`src/server/src/handlers/update_container_risk_score.ts`, lines 31-36). -/
def severityWeights : Severity → ℚ
  | Severity.Critical => 1
  | Severity.High => 8/10
  | Severity.Medium => 6/10
  | Severity.Low => 3/10

/-- Translation of the explicit recompute handler `updateContainerRiskScore`
(`src/server/src/handlers/update_container_risk_score.ts`): verify the
container exists, average the risk scores of its Open issues weighted by
severity, cap at 100, round to 2 decimals, write and return the row. -/
def updateContainerRiskScore (containerId : ℤ) (st : DB) (now : ℤ) :
    DB × Except String Container :=
  match findContainer st containerId with
  | none => (st, Except.error ("Container with id " ++ toString containerId ++ " not found"))
  | some containerRow =>
    let securityIssues := st.issues.filter
      (fun i => i.container_id == containerId && i.status == IssueStatus.Open)
    let riskScore :=
      if securityIssues.isEmpty then (0 : ℚ)
      else
        let totalWeightedScore :=
          (securityIssues.map (fun i => i.risk_score * severityWeights i.severity)).sum
        let totalWeight := (securityIssues.map (fun i => severityWeights i.severity)).sum
        let r := if 0 < totalWeight then totalWeightedScore / totalWeight else 0
        min 100 (round2 r)
    let updatedContainer : Container := { containerRow with risk_score := riskScore, updated_at := now }
    let st2 : DB := { st with
      containers := st.containers.map (fun c => if c.id == containerId then { c with risk_score := riskScore, updated_at := now } else c) }
    (st2, Except.ok updatedContainer)

/-- Modelled from the spec text of section 4.2 policy (b), written from the
spec words: severity-weighted average of the risk scores of the Open issues
of the container, 0 when there is none, clamped to at most 100 and rounded
half-up to 2 decimals, with the weight table Critical 1.0, High 0.8,
Medium 0.6, Low 0.3. -/
def specOpenWeightedScore (issues : List SecurityIssue) (cid : ℤ) : ℚ :=
  let weight : Severity → ℚ := fun s =>
    match s with
    | Severity.Critical => 1
    | Severity.High => 8/10
    | Severity.Medium => 6/10
    | Severity.Low => 3/10
  let openIssues := issues.filter (fun i => i.container_id == cid && i.status == IssueStatus.Open)
  if openIssues.isEmpty then 0
  else
    min 100 (specRound2
      ((openIssues.map (fun i => i.risk_score * weight i.severity)).sum /
        (openIssues.map (fun i => weight i.severity)).sum))

/-- The row inserted by `createSecurityViolation`
(`src/server/src/handlers/create_security_violation.ts`, lines 81-99):
status defaults to Open. -/
def mkViolation (input : CreateSecurityViolationInput) (newId now : ℤ) : SecurityViolation :=
  { id := newId
    title := input.title
    description := input.description
    violation_type := input.violation_type
    severity := input.severity
    status := IssueStatus.Open
    incident_date := input.incident_date
    detection_method := input.detection_method
    affected_systems := input.affected_systems
    impact_assessment := input.impact_assessment
    remediation_steps := input.remediation_steps
    container_id := input.container_id
    related_issue_id := input.related_issue_id
    assigned_to := input.assigned_to
    created_by := input.created_by
    created_at := now
    updated_at := now }

/-- The shape of the optional-foreign-key checks of
`createSecurityViolation`: when the reference is present and resolves to no
row, return the dangling id. -/
def fkCheck (ref : Option ℤ) (existsRow : ℤ → Bool) : Option ℤ :=
  match ref with
  | none => none
  | some v => if existsRow v then none else some v

/-- Translation of `createSecurityViolation`
(`src/server/src/handlers/create_security_violation.ts`, lines 32-106):
validate `created_by`, then the optional `container_id`,
`related_issue_id` and `assigned_to` in that order, failing with the
message that names the dangling id; insert only when all resolve. -/
def createSecurityViolation (input : CreateSecurityViolationInput) (st : DB) (newId now : ℤ) :
    DB × Except String SecurityViolation :=
  if ¬ st.users.any (fun u => u.id == input.created_by) then
    (st, Except.error ("User with ID " ++ toString input.created_by ++ " does not exist"))
  else
    match fkCheck input.container_id (fun cid => st.containers.any (fun c => c.id == cid)) with
    | some cid => (st, Except.error ("Container with ID " ++ toString cid ++ " does not exist"))
    | none =>
      match fkCheck input.related_issue_id (fun iid => st.issues.any (fun i => i.id == iid)) with
      | some iid => (st, Except.error ("Security issue with ID " ++ toString iid ++ " does not exist"))
      | none =>
        match fkCheck input.assigned_to (fun uid => st.users.any (fun u => u.id == uid)) with
        | some uid => (st, Except.error ("Assigned user with ID " ++ toString uid ++ " does not exist"))
        | none =>
          let row := mkViolation input newId now
          ({ st with violations := st.violations ++ [row] }, Except.ok row)

/-- Modelled from the spec text of section 4.5: every non-null foreign key
reference of a violation-create input resolves to an existing row. -/
def violationFKsOk (input : CreateSecurityViolationInput) (st : DB) : Bool :=
  st.users.any (fun u => u.id == input.created_by) &&
  (match input.container_id with
   | none => true
   | some cid => st.containers.any (fun c => c.id == cid)) &&
  (match input.related_issue_id with
   | none => true
   | some iid => st.issues.any (fun i => i.id == iid)) &&
  (match input.assigned_to with
   | none => true
   | some uid => st.users.any (fun u => u.id == uid))

/-- The CASE expression ranking severities in the violation queries
(`get_security_violations.ts`, lines 127-133): Critical 1, High 2,
Medium 3, Low 4 (the ELSE 5 branch is unreachable over the enum). -/
def sevRank : Severity → ℤ
  | Severity.Critical => 1
  | Severity.High => 2
  | Severity.Medium => 3
  | Severity.Low => 4

/-- Ordering used by `getActiveSecurityViolations`: severity rank
ascending, then `created_at` descending. -/
def activeViolationRel (a b : SecurityViolation) : Prop :=
  toLex (sevRank a.severity, -a.created_at) ≤ toLex (sevRank b.severity, -b.created_at)

instance : DecidableRel activeViolationRel := fun a b => by
  unfold activeViolationRel
  infer_instance

instance : IsTotal SecurityViolation activeViolationRel :=
  ⟨fun a b => le_total (toLex (sevRank a.severity, -a.created_at)) (toLex (sevRank b.severity, -b.created_at))⟩

instance : IsTrans SecurityViolation activeViolationRel :=
  ⟨fun _ _ _ h1 h2 => le_trans h1 h2⟩

/-- Translation of `getActiveSecurityViolations`
(`src/server/src/handlers/get_security_violations.ts`, lines 114-143):
rows whose status is Open or In-progress, ordered by the severity CASE
ascending then creation time descending.  The SQL ORDER BY is modelled as
a sort by that ordering. -/
def getActiveSecurityViolations (st : DB) : List SecurityViolation :=
  List.insertionSort activeViolationRel
    (st.violations.filter (fun v => v.status == IssueStatus.Open || v.status == IssueStatus.InProgress))

/-- One entry of the dashboard `top_risk_containers` list. -/
structure TopRiskContainer where
  container_id : ℤ
  container_name : String
  risk_score : ℚ
  issue_count : ℕ
deriving DecidableEq, Repr

/-- One entry of the dashboard `recent_violations` list. -/
structure RecentViolation where
  id : ℤ
  title : String
  severity : Severity
  created_at : ℤ
deriving DecidableEq, Repr

/-- The composite dashboard result (`dashboardAnalyticsSchema`); the
`control_coverage` object is flattened into three fields. -/
structure DashboardAnalytics where
  total_issues : ℕ
  critical_issues : ℕ
  high_issues : ℕ
  medium_issues : ℕ
  low_issues : ℕ
  open_issues : ℕ
  resolved_issues : ℕ
  average_risk_score : ℚ
  top_risk_containers : List TopRiskContainer
  recent_violations : List RecentViolation
  control_coverage_existing : ℕ
  control_coverage_planned : ℕ
  control_coverage_not_specified : ℕ
deriving DecidableEq, Repr

/-- Ordering of the dashboard top-container query: average issue risk
score descending. -/
def topContainerRel (issues : List SecurityIssue) (a b : Container) : Prop :=
  meanRisk issues b.id ≤ meanRisk issues a.id

instance (issues : List SecurityIssue) : DecidableRel (topContainerRel issues) := fun a b => by
  unfold topContainerRel
  infer_instance

instance (issues : List SecurityIssue) : IsTotal Container (topContainerRel issues) :=
  ⟨fun a b => le_total (meanRisk issues b.id) (meanRisk issues a.id)⟩

instance (issues : List SecurityIssue) : IsTrans Container (topContainerRel issues) :=
  ⟨fun _ _ _ h1 h2 => le_trans h2 h1⟩

/-- Ordering of the dashboard recent-violation query: creation time
descending. -/
def recentViolationRel (a b : SecurityViolation) : Prop :=
  b.created_at ≤ a.created_at

instance : DecidableRel recentViolationRel := fun a b => by
  unfold recentViolationRel
  infer_instance

instance : IsTotal SecurityViolation recentViolationRel :=
  ⟨fun a b => le_total b.created_at a.created_at⟩

instance : IsTrans SecurityViolation recentViolationRel :=
  ⟨fun _ _ _ h1 h2 => le_trans h2 h1⟩

/-- Translation of the real `getDashboardAnalytics` (the implementation
concatenated after `get_security_controls.ts`, lines 89-235): severity and
status rollups, average risk, top-5 containers by average issue risk, the
violations of the last 30 days newest-first capped at 10, and coverage
counts over active controls.  SQL GROUP BY/ORDER BY/LIMIT become
filter, sort and take. -/
def getDashboardAnalytics (st : DB) (now : ℤ) : DashboardAnalytics :=
  let issues := st.issues
  let severityCount := fun s => issues.countP (fun i => i.severity == s)
  let statusCount := fun s => issues.countP (fun i => i.status == s)
  let averageRiskScore :=
    if issues.isEmpty then (0 : ℚ)
    else (issues.map (fun i => i.risk_score)).sum / (issues.length : ℚ)
  let eligible := st.containers.filter (fun c => !(issuesOf issues c.id).isEmpty)
  let ranked := List.insertionSort (topContainerRel issues) eligible
  let top := (ranked.take 5).map (fun c =>
    { container_id := c.id
      container_name := c.name
      risk_score := meanRisk issues c.id
      issue_count := (issuesOf issues c.id).length : TopRiskContainer })
  let thirtyDaysAgo := now - 30
  let recentRows := st.violations.filter (fun v => decide (thirtyDaysAgo ≤ v.incident_date))
  let recent := ((List.insertionSort recentViolationRel recentRows).take 10).map (fun v =>
    { id := v.id, title := v.title, severity := v.severity, created_at := v.created_at : RecentViolation })
  let activeControls := st.controls.filter (fun c => c.is_active)
  { total_issues := severityCount Severity.Critical + severityCount Severity.High +
      severityCount Severity.Medium + severityCount Severity.Low
    critical_issues := severityCount Severity.Critical
    high_issues := severityCount Severity.High
    medium_issues := severityCount Severity.Medium
    low_issues := severityCount Severity.Low
    open_issues := statusCount IssueStatus.Open + statusCount IssueStatus.InProgress
    resolved_issues := statusCount IssueStatus.Closed + statusCount IssueStatus.Resolved
    average_risk_score := averageRiskScore
    top_risk_containers := top
    recent_violations := recent
    control_coverage_existing :=
      activeControls.countP (fun c => c.implementation_status == ControlStatus.Existing)
    control_coverage_planned :=
      activeControls.countP (fun c => c.implementation_status == ControlStatus.Planned)
    control_coverage_not_specified :=
      activeControls.countP (fun c => c.implementation_status == ControlStatus.NotSpecified) }

/-- Fixture user row. -/
def baseUser : User :=
  { id := 1, username := "analyst", email := "analyst@example.com", full_name := "Analyst"
    role := UserRole.SecurityAnalyst, created_at := 0, updated_at := 0, is_active := true }

/-- Fixture container row. -/
def baseContainer : Container :=
  { id := 1, name := "Payments", description := none, type := ContainerType.Application
    risk_score := 0, external_id := none, external_system := none, created_by := 1
    created_at := 0, updated_at := 0, is_active := true }

/-- Fixture issue row: the spec example row with dimensions 50/30/20/10/5. -/
def baseIssue : SecurityIssue :=
  { id := 1, title := "Base issue", description := "d", severity := Severity.Medium
    status := IssueStatus.Open, classification := Classification.Vulnerability
    hierarchy := Hierarchy.Task, risk_score := 23
    confidentiality_impact := 50, integrity_impact := 30, availability_impact := 20
    compliance_impact := 10, third_party_risk := 5
    mitre_attack_id := none, mitre_attack_tactic := none, mitre_attack_technique := none
    linddun_category := none, attack_complexity := none, threat_modeling_notes := none
    compensating_controls := none, container_id := 1, parent_issue_id := none
    assigned_to := none, created_by := 1, created_at := 0, updated_at := 0
    is_automated_finding := false }

/-- Fixture store holding the user, the container and the issue. -/
def baseDB : DB :=
  { users := [baseUser], containers := [baseContainer], issues := [baseIssue]
    violations := [], controls := [] }

/-- Fixture create-issue input with the spec example dimensions
80/70/60/10/5. -/
def sampleCreateInput : CreateSecurityIssueInput :=
  { title := "Injection", description := "d", severity := Severity.Critical
    classification := Classification.Vulnerability, hierarchy := Hierarchy.Task
    confidentiality_impact := 80, integrity_impact := 70, availability_impact := 60
    compliance_impact := 10, third_party_risk := 5
    mitre_attack_id := none, mitre_attack_tactic := none, mitre_attack_technique := none
    linddun_category := none, attack_complexity := none, threat_modeling_notes := none
    compensating_controls := none, container_id := 1, parent_issue_id := none
    assigned_to := none, created_by := 1, is_automated_finding := false }

/-- Fixture update-issue input carrying no field beyond the id. -/
def emptyUpdateInput : UpdateSecurityIssueInput :=
  { id := 1, title := none, description := none, severity := none, status := none
    classification := none, confidentiality_impact := none, integrity_impact := none
    availability_impact := none, compliance_impact := none, third_party_risk := none
    mitre_attack_id := none, mitre_attack_tactic := none, mitre_attack_technique := none
    linddun_category := none, attack_complexity := none, threat_modeling_notes := none
    compensating_controls := none, assigned_to := none }

/-- Fixture update payload of the spec example: raise confidentiality to 90
and compliance to 40, touch nothing else. -/
def specExampleUpdate : UpdateSecurityIssueInput :=
  { emptyUpdateInput with confidentiality_impact := some 90, compliance_impact := some 40 }

/-- Fixture create input whose five dimensions all equal one half. -/
def uniformHalfInput : CreateSecurityIssueInput :=
  { sampleCreateInput with
    confidentiality_impact := 1/2, integrity_impact := 1/2, availability_impact := 1/2
    compliance_impact := 1/2, third_party_risk := 1/2 }

/-- Fixture create input whose five dimensions all equal 100. -/
def uniformHundredInput : CreateSecurityIssueInput :=
  { sampleCreateInput with
    confidentiality_impact := 100, integrity_impact := 100, availability_impact := 100
    compliance_impact := 100, third_party_risk := 100 }

/-- Fixture issues with risk score 0, for the container-average example. -/
def zeroIssue2 : SecurityIssue :=
  { baseIssue with
    id := 2, risk_score := 0
    confidentiality_impact := 0, integrity_impact := 0, availability_impact := 0
    compliance_impact := 0, third_party_risk := 0 }

/-- Second fixture issue with risk score 0. -/
def zeroIssue3 : SecurityIssue :=
  { zeroIssue2 with id := 3 }

/-- Fixture store with three issues in the container. -/
def threeIssueDB : DB :=
  { baseDB with issues := [baseIssue, zeroIssue2, zeroIssue3] }

/-- Fixture update payload setting every dimension of issue 1 to 1, so its
recomputed risk score is exactly 1. -/
def uniformOneUpdate : UpdateSecurityIssueInput :=
  { emptyUpdateInput with
    confidentiality_impact := some 1, integrity_impact := some 1
    availability_impact := some 1, compliance_impact := some 1
    third_party_risk := some 1 }

/-- Fixture store without containers or issues. -/
def noContainerDB : DB :=
  { baseDB with containers := [], issues := [] }

/-- Fixture create-issue input whose container reference 999999 resolves to
no row. -/
def danglingCreateInput : CreateSecurityIssueInput :=
  { sampleCreateInput with container_id := 999999 }

/-- Fixture violation-create input referencing no optional row. -/
def baseViolationInput : CreateSecurityViolationInput :=
  { title := "Leak", description := "d", violation_type := ViolationType.DataLeak
    severity := Severity.High, incident_date := 0
    detection_method := none, affected_systems := none, impact_assessment := none
    remediation_steps := none, container_id := none, related_issue_id := none
    assigned_to := none, created_by := 1 }

theorem jsRound_eq_of (x : ℚ) (n : ℤ) (h1 : (n : ℚ) ≤ x + 1/2) (h2 : x + 1/2 < (n : ℚ) + 1) :
    jsRound x = n := by
  unfold jsRound
  rw [Int.floor_eq_iff]
  exact ⟨h1, by linarith⟩

theorem jsRound_intCast (n : ℤ) : jsRound (n : ℚ) = n := by
  apply jsRound_eq_of <;> linarith

theorem jsRound_natCast (n : ℕ) : jsRound (n : ℚ) = n := by
  have h := jsRound_intCast (n : ℤ)
  push_cast at h
  exact h

theorem round2_eq_specRound2 (x : ℚ) : round2 x = specRound2 x := by
  unfold round2 specRound2 jsRound
  ring_nf

theorem updateIssue_calc_eq_spec (c i a compl tp : ℚ) :
    UpdateIssue.calculateRiskScore c i a compl tp = specRiskScore c i a compl tp := by
  unfold UpdateIssue.calculateRiskScore specRiskScore
  rw [round2_eq_specRound2]
  unfold specRound2
  ring_nf

theorem specRound2_fix (x : ℚ) (n : ℤ) (h : (n : ℚ) = 100 * x) : specRound2 x = x := by
  unfold specRound2
  rw [← h]
  have h2 : (⌊(n : ℚ) + 1/2⌋ : ℤ) = n := by
    have h3 := jsRound_intCast n
    unfold jsRound at h3
    exact h3
  rw [h2, h]
  ring

theorem round2_fix (x : ℚ) (n : ℤ) (h : (n : ℚ) = 100 * x) : round2 x = x := by
  rw [round2_eq_specRound2]
  exact specRound2_fix x n h

theorem round2_natCast (n : ℕ) : round2 (n : ℚ) = n := by
  apply round2_fix _ (100 * (n : ℤ))
  push_cast
  ring

/-- Claim C1, counterexample: at the spec example input (80, 70, 60, 10, 5)
the create handler stores risk score 52, not the 54.5 the claimed formula
gives, so the claim fails on the create path. -/
theorem c1_counterexample :
    (CreateIssue.mkIssue sampleCreateInput 2 1).risk_score = 52 ∧
    specRiskScore 80 70 60 10 5 = 109/2 ∧ ((52 : ℚ) ≠ 109/2) := by
  refine ⟨?_, ?_, by norm_num⟩
  · show (CreateIssue.calculateRiskScore 80 70 60 10 5 : ℚ) = 52
    unfold CreateIssue.calculateRiskScore
    have h : jsRound (80 * (25/100) + 70 * (25/100) + 60 * (20/100) + 10 * (15/100) +
        5 * (15/100)) = 52 := by
      apply jsRound_eq_of <;> norm_num
    simp only [h]
    norm_num
  · unfold specRiskScore
    have h0 : ((25/100 : ℚ) * 80 + (25/100) * 70 + (25/100) * 60 + (15/100) * 10 +
        (10/100) * 5) = 109/2 := by norm_num
    rw [h0]
    apply specRound2_fix _ 5450
    norm_num

/-- Claim C1, amended: on every issue update in which at least one impact
dimension is present, the stored risk score equals the spec formula
0.25·C + 0.25·I + 0.25·A + 0.15·Compl + 0.10·TP rounded half-up to 2
decimals, over the mix of new and stored dimension values; on create the
stored risk score instead equals
0.25·C + 0.25·I + 0.20·A + 0.15·Compl + 0.15·TP rounded half-up to a
whole number. -/
theorem c1_theorem (input : UpdateSecurityIssueInput) (st : DB) (now : ℤ) (fails : Bool)
    (current : SecurityIssue) (hfind : findIssue st input.id = some current)
    (himp : UpdateIssue.impactChanged input = true) :
    (∃ u, (UpdateIssue.updateSecurityIssue input st now fails).2 = Except.ok u ∧
      u.risk_score =
        specRiskScore (input.confidentiality_impact.getD current.confidentiality_impact)
          (input.integrity_impact.getD current.integrity_impact)
          (input.availability_impact.getD current.availability_impact)
          (input.compliance_impact.getD current.compliance_impact)
          (input.third_party_risk.getD current.third_party_risk)) ∧
    (∀ (cinput : CreateSecurityIssueInput) (newId cnow : ℤ),
      (CreateIssue.mkIssue cinput newId cnow).risk_score =
        (jsRound ((25/100) * cinput.confidentiality_impact +
          (25/100) * cinput.integrity_impact + (20/100) * cinput.availability_impact +
          (15/100) * cinput.compliance_impact + (15/100) * cinput.third_party_risk) : ℚ)) := by
  constructor
  · refine ⟨UpdateIssue.mergedIssue input current now, ?_, ?_⟩
    · unfold UpdateIssue.updateSecurityIssue
      rw [hfind]
    · show (if UpdateIssue.impactChanged input then _ else _) = _
      rw [himp]
      simp only [if_true]
      exact updateIssue_calc_eq_spec _ _ _ _ _
  · intro cinput newId cnow
    show (CreateIssue.calculateRiskScore cinput.confidentiality_impact cinput.integrity_impact
      cinput.availability_impact cinput.compliance_impact cinput.third_party_risk : ℚ) = _
    unfold CreateIssue.calculateRiskScore
    norm_num [mul_comm]

/-- Claim C1, witness: the spec example update (C to 90, Compl to 40 on the
stored row 50/30/20/10/5) goes through the theorem and yields the spec
formula value. -/
theorem c1_witness :
    ∃ u, (UpdateIssue.updateSecurityIssue specExampleUpdate baseDB 7 false).2 = Except.ok u ∧
      u.risk_score = specRiskScore 90 30 20 40 5 := by
  obtain ⟨⟨u, hu, hr⟩, -⟩ := c1_theorem specExampleUpdate baseDB 7 false baseIssue rfl rfl
  exact ⟨u, hu, hr⟩

/-- Claim C7, counterexample: with all five dimensions equal to one half,
the created issue receives risk score 1, not 0.5: a non-integer uniform
value does not reproduce itself on the create path. -/
theorem c7_counterexample :
    (CreateIssue.mkIssue uniformHalfInput 2 1).risk_score = 1 ∧ ((1 : ℚ) ≠ 1/2) := by
  refine ⟨?_, by norm_num⟩
  show (CreateIssue.calculateRiskScore (1/2) (1/2) (1/2) (1/2) (1/2) : ℚ) = 1
  unfold CreateIssue.calculateRiskScore
  have h : jsRound ((1/2) * (25/100) + (1/2) * (25/100) + (1/2) * (20/100) +
      (1/2) * (15/100) + (1/2) * (15/100)) = 1 := by
    apply jsRound_eq_of <;> norm_num
  simp only [h]
  norm_num

/-- Claim C7, amended: for every natural number v at most 100, an issue
whose five impact dimensions all equal v receives risk score exactly v on
creation, and the update formula maps the uniform input v to exactly v as
well; in particular all-zero inputs give 0 and all-100 inputs give 100.  A
non-integer uniform v is instead rounded (to a whole number on create, to
2 decimals on update). -/
theorem c7_theorem (n : ℕ) (_hn : n ≤ 100) (input : CreateSecurityIssueInput) (newId now : ℤ)
    (h1 : input.confidentiality_impact = n) (h2 : input.integrity_impact = n)
    (h3 : input.availability_impact = n) (h4 : input.compliance_impact = n)
    (h5 : input.third_party_risk = n) :
    (CreateIssue.mkIssue input newId now).risk_score = n ∧
    UpdateIssue.calculateRiskScore n n n n n = n := by
  constructor
  · show (CreateIssue.calculateRiskScore input.confidentiality_impact input.integrity_impact
      input.availability_impact input.compliance_impact input.third_party_risk : ℚ) = n
    rw [h1, h2, h3, h4, h5]
    show ((jsRound ((n : ℚ) * (25/100) + (n : ℚ) * (25/100) + (n : ℚ) * (20/100) +
      (n : ℚ) * (15/100) + (n : ℚ) * (15/100)) : ℤ) : ℚ) = (n : ℚ)
    have hsum : ((n : ℚ) * (25/100) + (n : ℚ) * (25/100) + (n : ℚ) * (20/100) +
        (n : ℚ) * (15/100) + (n : ℚ) * (15/100)) = (n : ℚ) := by ring
    rw [hsum, jsRound_natCast]
    push_cast
    ring
  · show round2 ((n : ℚ) * (25/100) + (n : ℚ) * (25/100) + (n : ℚ) * (25/100) +
      (n : ℚ) * (15/100) + (n : ℚ) * (1/10)) = (n : ℚ)
    have hsum : ((n : ℚ) * (25/100) + (n : ℚ) * (25/100) + (n : ℚ) * (25/100) +
        (n : ℚ) * (15/100) + (n : ℚ) * (1/10)) = (n : ℚ) := by ring
    rw [hsum, round2_natCast]

/-- Claim C7, witness: the all-100 input creates an issue with risk score
exactly 100, and the update formula fixes 100 as well. -/
theorem c7_witness :
    (CreateIssue.mkIssue uniformHundredInput 2 1).risk_score = 100 ∧
    UpdateIssue.calculateRiskScore 100 100 100 100 100 = 100 := by
  have h := c7_theorem 100 (by norm_num) uniformHundredInput 2 1 rfl rfl rfl rfl rfl
  simpa using h

/-- Claim C3, counterexample: on a successful create whose follow-up
container recompute fails, the issue row is persisted but the handler
reports the failure to the caller instead of swallowing it, so the
fire-and-forget claim fails on the create path. -/
theorem c3_counterexample :
    (CreateIssue.createSecurityIssue sampleCreateInput baseDB 2 1 true).2 =
      Except.error "Security issue creation failed" ∧
    (CreateIssue.createSecurityIssue sampleCreateInput baseDB 2 1 true).1.issues =
      baseDB.issues ++ [CreateIssue.mkIssue sampleCreateInput 2 1] :=
  ⟨rfl, rfl⟩

/-- Claim C3, amended: on an issue update, a failure of the container
recompute is swallowed: the handler returns exactly the result it returns
when the recompute succeeds, and the stored issue rows are the same either
way.  On an issue create, the issue row is persisted even when the
recompute fails, but the failure propagates to the caller as an error. -/
theorem c3_theorem (uinput : UpdateSecurityIssueInput) (cinput : CreateSecurityIssueInput)
    (st st2 : DB) (now newId cnow : ℤ) :
    ((UpdateIssue.updateSecurityIssue uinput st now true).2 =
        (UpdateIssue.updateSecurityIssue uinput st now false).2 ∧
      (UpdateIssue.updateSecurityIssue uinput st now true).1.issues =
        (UpdateIssue.updateSecurityIssue uinput st now false).1.issues) ∧
    ((CreateIssue.createSecurityIssue cinput st2 newId cnow true).1.issues =
        st2.issues ++ [CreateIssue.mkIssue cinput newId cnow] ∧
      ∃ msg, (CreateIssue.createSecurityIssue cinput st2 newId cnow true).2 =
        Except.error msg) := by
  refine ⟨?_, rfl, "Security issue creation failed", rfl⟩
  unfold UpdateIssue.updateSecurityIssue
  cases hfind : findIssue st uinput.id with
  | none => exact ⟨rfl, rfl⟩
  | some current =>
    refine ⟨rfl, ?_⟩
    cases himp : UpdateIssue.impactChanged uinput with
    | false => simp only [himp, Bool.false_eq_true, if_false]
    | true =>
      simp only [himp, if_true]
      rfl

/-- Claim C4, counterexample: `createSecurityIssue` validates nothing: with
a container reference 999999 that resolves to no row, the create succeeds
and the issue row is persisted, instead of failing with a not-found error
and persisting nothing. -/
theorem c4_counterexample :
    findContainer noContainerDB 999999 = none ∧
    (CreateIssue.createSecurityIssue danglingCreateInput noContainerDB 2 1 false).2 =
      Except.ok (CreateIssue.mkIssue danglingCreateInput 2 1) ∧
    (CreateIssue.createSecurityIssue danglingCreateInput noContainerDB 2 1 false).1.issues =
      [CreateIssue.mkIssue danglingCreateInput 2 1] :=
  ⟨rfl, rfl, rfl⟩

/-- Claim C4, amended: `createSecurityViolation` behaves as the claim says
for every non-null foreign key of its input: it succeeds exactly when every
provided reference resolves, on failure the store is unchanged and the
error names the offending id (`created_by` first, then `container_id`,
`related_issue_id`, `assigned_to`), and on success exactly the new row is
appended.  `createSecurityIssue` instead performs no reference validation
and inserts even for dangling references. -/
theorem c4_theorem (input : CreateSecurityViolationInput) (st : DB) (newId now : ℤ) :
    ((createSecurityViolation input st newId now).2.isOk = violationFKsOk input st) ∧
    (violationFKsOk input st = false → (createSecurityViolation input st newId now).1 = st) ∧
    (violationFKsOk input st = true →
      (createSecurityViolation input st newId now).1.violations =
        st.violations ++ [mkViolation input newId now] ∧
      (createSecurityViolation input st newId now).2 = Except.ok (mkViolation input newId now)) ∧
    (st.users.any (fun u => u.id == input.created_by) = false →
      (createSecurityViolation input st newId now).2 =
        Except.error ("User with ID " ++ toString input.created_by ++ " does not exist")) ∧
    (∀ cid, input.container_id = some cid →
      st.users.any (fun u => u.id == input.created_by) = true →
      st.containers.any (fun c => c.id == cid) = false →
      (createSecurityViolation input st newId now).2 =
        Except.error ("Container with ID " ++ toString cid ++ " does not exist")) := by
  unfold createSecurityViolation violationFKsOk fkCheck
  cases hu : st.users.any (fun u => u.id == input.created_by) with
  | false =>
    simp only [hu, Bool.false_and, Bool.not_false, if_true, Bool.false_eq_true, if_false]
    refine ⟨rfl, fun _ => rfl, fun h => absurd h (by simp), fun _ => rfl, ?_⟩
    intro cid hcid htrue
    exact absurd htrue (by simp)
  | true =>
    simp only [hu, Bool.true_and, Bool.not_true, Bool.false_eq_true, if_false]
    cases hc : input.container_id with
    | none =>
      simp only
      cases hr : input.related_issue_id with
      | none =>
        simp only
        cases ha : input.assigned_to with
        | none => exact ⟨rfl, by simp, fun _ => ⟨rfl, rfl⟩, by simp, fun cid hcid => by simp_all⟩
        | some uid =>
          cases hau : st.users.any (fun u => u.id == uid) with
          | false =>
            simp only [hau, Bool.false_eq_true, if_false]
            exact ⟨rfl, fun _ => rfl, by simp, by simp, fun cid hcid => by simp_all⟩
          | true =>
            simp only [hau, if_true]
            exact ⟨rfl, by simp, fun _ => ⟨rfl, rfl⟩, by simp, fun cid hcid => by simp_all⟩
      | some iid =>
        cases hri : st.issues.any (fun i => i.id == iid) with
        | false =>
          simp only [hri, Bool.false_eq_true, if_false, Bool.and_false, Bool.false_and]
          exact ⟨rfl, fun _ => rfl, by simp, by simp, fun cid hcid => by simp_all⟩
        | true =>
          simp only [hri, if_true, Bool.true_and]
          cases ha : input.assigned_to with
          | none => exact ⟨rfl, by simp, fun _ => ⟨rfl, rfl⟩, by simp, fun cid hcid => by simp_all⟩
          | some uid =>
            cases hau : st.users.any (fun u => u.id == uid) with
            | false =>
              simp only [hau, Bool.false_eq_true, if_false]
              exact ⟨rfl, fun _ => rfl, by simp, by simp, fun cid hcid => by simp_all⟩
            | true =>
              simp only [hau, if_true]
              exact ⟨rfl, by simp, fun _ => ⟨rfl, rfl⟩, by simp, fun cid hcid => by simp_all⟩
    | some cid0 =>
      cases hcc : st.containers.any (fun c => c.id == cid0) with
      | false =>
        simp only [hcc, Bool.false_eq_true, if_false, Bool.false_and]
        refine ⟨rfl, fun _ => rfl, by simp, by simp, ?_⟩
        intro cid hcid _ hfalse
        have heq : cid = cid0 := (Option.some_inj.mp hcid).symm
        subst heq
        rfl
      | true =>
        simp only [hcc, if_true, Bool.true_and]
        have hcontr : ∀ cid, some cid0 = some cid →
            st.containers.any (fun c => c.id == cid) = false → False := by
          intro cid hcid hfalse
          have : cid = cid0 := (Option.some_inj.mp hcid).symm
          subst this
          rw [hcc] at hfalse
          exact Bool.true_eq_false.mp hfalse
        cases hr : input.related_issue_id with
        | none =>
          simp only
          cases ha : input.assigned_to with
          | none =>
            exact ⟨rfl, by simp, fun _ => ⟨rfl, rfl⟩, by simp, fun cid h1 h2 h3 => (hcontr cid h1 h3).elim⟩
          | some uid =>
            cases hau : st.users.any (fun u => u.id == uid) with
            | false =>
              simp only [hau, Bool.false_eq_true, if_false]
              exact ⟨rfl, fun _ => rfl, by simp, by simp, fun cid h1 h2 h3 => (hcontr cid h1 h3).elim⟩
            | true =>
              simp only [hau, if_true]
              exact ⟨rfl, by simp, fun _ => ⟨rfl, rfl⟩, by simp, fun cid h1 h2 h3 => (hcontr cid h1 h3).elim⟩
        | some iid =>
          cases hri : st.issues.any (fun i => i.id == iid) with
          | false =>
            simp only [hri, Bool.false_eq_true, if_false, Bool.and_false, Bool.false_and]
            exact ⟨rfl, fun _ => rfl, by simp, by simp, fun cid h1 h2 h3 => (hcontr cid h1 h3).elim⟩
          | true =>
            simp only [hri, if_true, Bool.true_and]
            cases ha : input.assigned_to with
            | none =>
              exact ⟨rfl, by simp, fun _ => ⟨rfl, rfl⟩, by simp, fun cid h1 h2 h3 => (hcontr cid h1 h3).elim⟩
            | some uid =>
              cases hau : st.users.any (fun u => u.id == uid) with
              | false =>
                simp only [hau, Bool.false_eq_true, if_false]
                exact ⟨rfl, fun _ => rfl, by simp, by simp, fun cid h1 h2 h3 => (hcontr cid h1 h3).elim⟩
              | true =>
                simp only [hau, if_true]
                exact ⟨rfl, by simp, fun _ => ⟨rfl, rfl⟩, by simp, fun cid h1 h2 h3 => (hcontr cid h1 h3).elim⟩

/-- Claim C4, witness: the fixture violation input resolves every
reference in the fixture store, so the create appends exactly the new row
and returns it. -/
theorem c4_witness :
    (createSecurityViolation baseViolationInput baseDB 2 1).1.violations =
      baseDB.violations ++ [mkViolation baseViolationInput 2 1] ∧
    (createSecurityViolation baseViolationInput baseDB 2 1).2 =
      Except.ok (mkViolation baseViolationInput 2 1) :=
  (c4_theorem baseViolationInput baseDB 2 1).2.2.1 rfl

theorem find_update_containers (l : List Container) (cid : ℤ) (f : Container → Container)
    (hf : ∀ c, (f c).id = c.id) :
    (l.map (fun c => if c.id == cid then f c else c)).find? (fun c => c.id == cid) =
      (l.find? (fun c => c.id == cid)).map f := by
  induction l with
  | nil => rfl
  | cons a l ih =>
    simp only [List.map_cons]
    by_cases h : a.id = cid
    · have ha : (a.id == cid) = true := by simp [h]
      have hfa : ((f a).id == cid) = true := by simp [hf a, h]
      have e1 : List.find? (fun c => c.id == cid)
          (f a :: List.map (fun c => if c.id == cid then f c else c) l) = some (f a) :=
        List.find?_cons_of_pos _ hfa
      have e2 : List.find? (fun c => c.id == cid) (a :: l) = some a :=
        List.find?_cons_of_pos _ ha
      rw [show (if a.id == cid then f a else a) = f a from by simp [ha], e1, e2]
      rfl
    · have ha : ¬ ((a.id == cid) = true) := by simp [h]
      have e1 : List.find? (fun c => c.id == cid)
          (a :: List.map (fun c => if c.id == cid then f c else c) l) =
          List.find? (fun c => c.id == cid)
            (List.map (fun c => if c.id == cid then f c else c) l) :=
        List.find?_cons_of_neg _ ha
      have e2 : List.find? (fun c => c.id == cid) (a :: l) =
          List.find? (fun c => c.id == cid) l :=
        List.find?_cons_of_neg _ ha
      rw [show (if a.id == cid then f a else a) = a from by simp [h], e1, e2, ih]

theorem uniformOne_calc : UpdateIssue.calculateRiskScore 1 1 1 1 1 = 1 := by
  rw [updateIssue_calc_eq_spec]
  unfold specRiskScore
  have h : ((25/100 : ℚ) * 1 + (25/100) * 1 + (25/100) * 1 + (15/100) * 1 + (10/100) * 1) = 1 := by
    norm_num
  rw [h]
  exact specRound2_fix 1 100 (by norm_num)

theorem round2_third : round2 (1/3 : ℚ) = 33/100 := by
  unfold round2
  have h : jsRound ((1/3 : ℚ) * 100) = 33 := by
    apply jsRound_eq_of <;> norm_num
  rw [h]
  norm_num

/-- Claim C5, counterexample: after updating issue 1 so the three issues of
container 1 carry risk scores 1, 0 and 0, the stored container risk score
is 0.33, not the exact mean 1/3: the update path rounds the mean to 2
decimals. -/
theorem c5_counterexample :
    (UpdateIssue.updateSecurityIssue uniformOneUpdate threeIssueDB 9 false).1.containers =
      [{ baseContainer with risk_score := 33/100, updated_at := 9 }] ∧
    meanRisk (UpdateIssue.updateSecurityIssue uniformOneUpdate threeIssueDB 9 false).1.issues 1 =
      1/3 ∧
    ((33/100 : ℚ) ≠ 1/3) := by
  have hiss : (UpdateIssue.updateSecurityIssue uniformOneUpdate threeIssueDB 9 false).1.issues =
      [UpdateIssue.mergedIssue uniformOneUpdate baseIssue 9, zeroIssue2, zeroIssue3] := rfl
  have hrisk : (UpdateIssue.mergedIssue uniformOneUpdate baseIssue 9).risk_score = 1 := by
    show UpdateIssue.calculateRiskScore 1 1 1 1 1 = 1
    exact uniformOne_calc
  have hz2 : zeroIssue2.risk_score = 0 := rfl
  have hz3 : zeroIssue3.risk_score = 0 := rfl
  have hfilter : List.filter (fun i => i.container_id == (1 : ℤ))
      [UpdateIssue.mergedIssue uniformOneUpdate baseIssue 9, zeroIssue2, zeroIssue3] =
      [UpdateIssue.mergedIssue uniformOneUpdate baseIssue 9, zeroIssue2, zeroIssue3] := rfl
  have hmean : meanRisk [UpdateIssue.mergedIssue uniformOneUpdate baseIssue 9, zeroIssue2,
      zeroIssue3] 1 = 1/3 := by
    unfold meanRisk issuesOf
    rw [hfilter]
    simp only [List.isEmpty_cons, Bool.false_eq_true, if_false, List.map_cons, List.map_nil,
      List.sum_cons, List.sum_nil, List.length_cons, List.length_nil]
    rw [hrisk, hz2, hz3]
    norm_num
  refine ⟨?_, by rw [hiss]; exact hmean, by norm_num⟩
  have hcont : (UpdateIssue.updateSecurityIssue uniformOneUpdate threeIssueDB 9 false).1.containers =
      [{ baseContainer with
        risk_score := round2 (meanRisk [UpdateIssue.mergedIssue uniformOneUpdate baseIssue 9,
          zeroIssue2, zeroIssue3] 1)
        updated_at := 9 }] := rfl
  rw [hcont, hmean, round2_third]

/-- Claim C5, amended: after every issue create the owning container row
carries exactly the arithmetic mean of risk scores over ALL issues of that
container regardless of status, with `updated_at` refreshed, and the new
issue row is appended; after every impact-changing issue update the owning
container row instead carries that mean rounded half-up to 2 decimal
places, again with `updated_at` refreshed. -/
theorem c5_theorem (cinput : CreateSecurityIssueInput) (uinput : UpdateSecurityIssueInput)
    (st st2 : DB) (newId now unow : ℤ) (current : SecurityIssue)
    (hfind : findIssue st2 uinput.id = some current)
    (himp : UpdateIssue.impactChanged uinput = true) :
    ((CreateIssue.createSecurityIssue cinput st newId now false).1.issues =
      st.issues ++ [CreateIssue.mkIssue cinput newId now] ∧
     findContainer (CreateIssue.createSecurityIssue cinput st newId now false).1
        cinput.container_id =
      (findContainer st cinput.container_id).map (fun c =>
        { c with
          risk_score :=
            meanRisk (st.issues ++ [CreateIssue.mkIssue cinput newId now]) cinput.container_id
          updated_at := now })) ∧
    findContainer (UpdateIssue.updateSecurityIssue uinput st2 unow false).1
        current.container_id =
      (findContainer st2 current.container_id).map (fun c =>
        { c with
          risk_score := round2 (meanRisk
            (UpdateIssue.updateSecurityIssue uinput st2 unow false).1.issues
            current.container_id)
          updated_at := unow }) := by
  refine ⟨⟨rfl, ?_⟩, ?_⟩
  · exact find_update_containers st.containers cinput.container_id _ (fun c => rfl)
  · unfold UpdateIssue.updateSecurityIssue
    rw [hfind]
    simp only [himp, if_true]
    unfold UpdateIssue.updateContainerRiskScore
    simp only [Bool.false_eq_true, if_false]
    have hcid : (UpdateIssue.mergedIssue uinput current unow).container_id =
      current.container_id := rfl
    rw [hcid]
    exact find_update_containers st2.containers current.container_id _ (fun c => rfl)

/-- Claim C5, witness: the spec example create and update run through the
theorem on the fixture store. -/
theorem c5_witness :
    ((CreateIssue.createSecurityIssue sampleCreateInput baseDB 2 1 false).1.issues =
      baseDB.issues ++ [CreateIssue.mkIssue sampleCreateInput 2 1] ∧
     findContainer (CreateIssue.createSecurityIssue sampleCreateInput baseDB 2 1 false).1 1 =
      (findContainer baseDB 1).map (fun c =>
        { c with
          risk_score := meanRisk (baseDB.issues ++ [CreateIssue.mkIssue sampleCreateInput 2 1]) 1
          updated_at := 1 })) ∧
    findContainer (UpdateIssue.updateSecurityIssue specExampleUpdate baseDB 3 false).1 1 =
      (findContainer baseDB 1).map (fun c =>
        { c with
          risk_score := round2 (meanRisk
            (UpdateIssue.updateSecurityIssue specExampleUpdate baseDB 3 false).1.issues 1)
          updated_at := 3 }) :=
  c5_theorem sampleCreateInput specExampleUpdate baseDB baseDB 2 1 3 baseIssue rfl rfl

/-- Claim C6: on a partial issue update of an existing row, the stored row
changes exactly at the fields present in the payload plus `risk_score` and
`updated_at`: every present field takes the payload value, every absent
field keeps its stored value, and the risk score is recomputed from the
mix of new and previously stored dimension values exactly when at least
one of the five impact dimensions is present. -/
theorem c6_theorem (input : UpdateSecurityIssueInput) (st : DB) (now : ℤ) (fails : Bool)
    (current : SecurityIssue) (hfind : findIssue st input.id = some current) :
    ∃ u, (UpdateIssue.updateSecurityIssue input st now fails).2 = Except.ok u ∧
      (UpdateIssue.updateSecurityIssue input st now fails).1.issues =
        st.issues.map (fun i => if i.id == input.id then u else i) ∧
      u.id = current.id ∧
      u.title = input.title.getD current.title ∧
      u.description = input.description.getD current.description ∧
      u.severity = input.severity.getD current.severity ∧
      u.status = input.status.getD current.status ∧
      u.classification = input.classification.getD current.classification ∧
      u.assigned_to = input.assigned_to.getD current.assigned_to ∧
      u.mitre_attack_id = input.mitre_attack_id.getD current.mitre_attack_id ∧
      u.mitre_attack_tactic = input.mitre_attack_tactic.getD current.mitre_attack_tactic ∧
      u.mitre_attack_technique = input.mitre_attack_technique.getD current.mitre_attack_technique ∧
      u.linddun_category = input.linddun_category.getD current.linddun_category ∧
      u.attack_complexity = input.attack_complexity.getD current.attack_complexity ∧
      u.threat_modeling_notes = input.threat_modeling_notes.getD current.threat_modeling_notes ∧
      u.compensating_controls = input.compensating_controls.getD current.compensating_controls ∧
      u.confidentiality_impact =
        input.confidentiality_impact.getD current.confidentiality_impact ∧
      u.integrity_impact = input.integrity_impact.getD current.integrity_impact ∧
      u.availability_impact = input.availability_impact.getD current.availability_impact ∧
      u.compliance_impact = input.compliance_impact.getD current.compliance_impact ∧
      u.third_party_risk = input.third_party_risk.getD current.third_party_risk ∧
      u.updated_at = now ∧
      u.risk_score =
        (if UpdateIssue.impactChanged input then
          UpdateIssue.calculateRiskScore
            (input.confidentiality_impact.getD current.confidentiality_impact)
            (input.integrity_impact.getD current.integrity_impact)
            (input.availability_impact.getD current.availability_impact)
            (input.compliance_impact.getD current.compliance_impact)
            (input.third_party_risk.getD current.third_party_risk)
        else current.risk_score) := by
  refine ⟨UpdateIssue.mergedIssue input current now, ?_, ?_,
    rfl, rfl, rfl, rfl, rfl, rfl, rfl, rfl, rfl, rfl, rfl, rfl, rfl, rfl, rfl, rfl, rfl, rfl,
    rfl, rfl, rfl⟩
  · unfold UpdateIssue.updateSecurityIssue
    rw [hfind]
  · unfold UpdateIssue.updateSecurityIssue
    rw [hfind]
    cases himp : UpdateIssue.impactChanged input with
    | false => simp only [himp, Bool.false_eq_true, if_false]
    | true =>
      simp only [himp, if_true]
      unfold UpdateIssue.updateContainerRiskScore
      cases fails with
      | false => rfl
      | true => rfl

/-- Claim C6, witness: updating only confidentiality and compliance on the
stored row 50/30/20/10/5 keeps every other field and recomputes the score
from the mixed dimensions 90/30/20/40/5. -/
theorem c6_witness :
    ∃ u, (UpdateIssue.updateSecurityIssue specExampleUpdate baseDB 3 false).2 = Except.ok u ∧
      (UpdateIssue.updateSecurityIssue specExampleUpdate baseDB 3 false).1.issues =
        baseDB.issues.map (fun i => if i.id == specExampleUpdate.id then u else i) ∧
      u.id = baseIssue.id ∧
      u.title = baseIssue.title ∧
      u.description = baseIssue.description ∧
      u.severity = baseIssue.severity ∧
      u.status = baseIssue.status ∧
      u.classification = baseIssue.classification ∧
      u.assigned_to = baseIssue.assigned_to ∧
      u.mitre_attack_id = baseIssue.mitre_attack_id ∧
      u.mitre_attack_tactic = baseIssue.mitre_attack_tactic ∧
      u.mitre_attack_technique = baseIssue.mitre_attack_technique ∧
      u.linddun_category = baseIssue.linddun_category ∧
      u.attack_complexity = baseIssue.attack_complexity ∧
      u.threat_modeling_notes = baseIssue.threat_modeling_notes ∧
      u.compensating_controls = baseIssue.compensating_controls ∧
      u.confidentiality_impact = 90 ∧
      u.integrity_impact = baseIssue.integrity_impact ∧
      u.availability_impact = baseIssue.availability_impact ∧
      u.compliance_impact = 40 ∧
      u.third_party_risk = baseIssue.third_party_risk ∧
      u.updated_at = 3 ∧
      u.risk_score =
        (if UpdateIssue.impactChanged specExampleUpdate then
          UpdateIssue.calculateRiskScore 90 30 20 40 5
        else baseIssue.risk_score) :=
  c6_theorem specExampleUpdate baseDB 3 false baseIssue rfl

/-- Claim C10: the update-input schema carries no field for
`container_id`, `hierarchy`, `parent_issue_id`, `created_by`,
`created_at` or `is_automated_finding` (an update input is fully
determined by its id and its eighteen optional payload fields), and for
every payload the updated row keeps the stored values of those six fields,
so an issue cannot be moved to another container or re-parented through
the public update operation. -/
theorem c10_theorem (input : UpdateSecurityIssueInput) (st : DB) (now : ℤ) (fails : Bool)
    (current : SecurityIssue) (hfind : findIssue st input.id = some current) :
    (∃ u, (UpdateIssue.updateSecurityIssue input st now fails).2 = Except.ok u ∧
      (UpdateIssue.updateSecurityIssue input st now fails).1.issues =
        st.issues.map (fun i => if i.id == input.id then u else i) ∧
      u.container_id = current.container_id ∧
      u.hierarchy = current.hierarchy ∧
      u.parent_issue_id = current.parent_issue_id ∧
      u.created_by = current.created_by ∧
      u.created_at = current.created_at ∧
      u.is_automated_finding = current.is_automated_finding) ∧
    (∀ (a b : UpdateSecurityIssueInput), a.id = b.id → a.title = b.title →
      a.description = b.description → a.severity = b.severity → a.status = b.status →
      a.classification = b.classification →
      a.confidentiality_impact = b.confidentiality_impact →
      a.integrity_impact = b.integrity_impact →
      a.availability_impact = b.availability_impact →
      a.compliance_impact = b.compliance_impact →
      a.third_party_risk = b.third_party_risk →
      a.mitre_attack_id = b.mitre_attack_id →
      a.mitre_attack_tactic = b.mitre_attack_tactic →
      a.mitre_attack_technique = b.mitre_attack_technique →
      a.linddun_category = b.linddun_category →
      a.attack_complexity = b.attack_complexity →
      a.threat_modeling_notes = b.threat_modeling_notes →
      a.compensating_controls = b.compensating_controls →
      a.assigned_to = b.assigned_to → a = b) := by
  constructor
  · refine ⟨UpdateIssue.mergedIssue input current now, ?_, ?_, rfl, rfl, rfl, rfl, rfl, rfl⟩
    · unfold UpdateIssue.updateSecurityIssue
      rw [hfind]
    · unfold UpdateIssue.updateSecurityIssue
      rw [hfind]
      cases himp : UpdateIssue.impactChanged input with
      | false => simp only [himp, Bool.false_eq_true, if_false]
      | true =>
        simp only [himp, if_true]
        unfold UpdateIssue.updateContainerRiskScore
        cases fails with
        | false => rfl
        | true => rfl
  · intro a b h1 h2 h3 h4 h5 h6 h7 h8 h9 h10 h11 h12 h13 h14 h15 h16 h17 h18 h19
    cases a
    cases b
    simp_all

/-- Claim C10, witness: the spec example update leaves the six immutable
fields of the stored row untouched. -/
theorem c10_witness :
    ∃ u, (UpdateIssue.updateSecurityIssue specExampleUpdate baseDB 4 false).2 = Except.ok u ∧
      (UpdateIssue.updateSecurityIssue specExampleUpdate baseDB 4 false).1.issues =
        baseDB.issues.map (fun i => if i.id == specExampleUpdate.id then u else i) ∧
      u.container_id = baseIssue.container_id ∧
      u.hierarchy = baseIssue.hierarchy ∧
      u.parent_issue_id = baseIssue.parent_issue_id ∧
      u.created_by = baseIssue.created_by ∧
      u.created_at = baseIssue.created_at ∧
      u.is_automated_finding = baseIssue.is_automated_finding :=
  (c10_theorem specExampleUpdate baseDB 4 false baseIssue rfl).1

theorem severityWeights_pos (s : Severity) : 0 < severityWeights s := by
  cases s <;> norm_num [severityWeights]

theorem sum_weights_pos (l : List SecurityIssue) (h : l ≠ []) :
    0 < (l.map (fun i => severityWeights i.severity)).sum := by
  cases l with
  | nil => exact absurd rfl h
  | cons a t =>
    simp only [List.map_cons, List.sum_cons]
    have ha : 0 < severityWeights a.severity := severityWeights_pos a.severity
    have ht : 0 ≤ (t.map (fun i => severityWeights i.severity)).sum := by
      apply List.sum_nonneg
      intro x hx
      obtain ⟨i, -, hi⟩ := List.mem_map.mp hx
      rw [← hi]
      exact le_of_lt (severityWeights_pos i.severity)
    linarith

/-- Claim C2: for every existing container, the explicit recompute sets and
returns the container risk score prescribed by the spec formula: the
severity-weighted average (weights Critical 1.0, High 0.8, Medium 0.6,
Low 0.3) of the risk scores of exactly the Open issues of that container,
0 when no Open issue exists, clamped to at most 100 and rounded to 2
decimal places; issues of any other status are excluded by the Open
filter, and `updated_at` is refreshed. -/
theorem c2_theorem (containerId : ℤ) (st : DB) (now : ℤ) (c : Container)
    (hfind : findContainer st containerId = some c) :
    (updateContainerRiskScore containerId st now).2 =
      Except.ok { c with
        risk_score := specOpenWeightedScore st.issues containerId, updated_at := now } ∧
    findContainer (updateContainerRiskScore containerId st now).1 containerId =
      some { c with
        risk_score := specOpenWeightedScore st.issues containerId, updated_at := now } := by
  have hscore :
      (if (st.issues.filter
            (fun i => i.container_id == containerId && i.status == IssueStatus.Open)).isEmpty
        then (0 : ℚ)
        else
          min 100 (round2
            (if 0 < ((st.issues.filter
                (fun i => i.container_id == containerId && i.status == IssueStatus.Open)).map
                  (fun i => severityWeights i.severity)).sum
              then ((st.issues.filter
                (fun i => i.container_id == containerId && i.status == IssueStatus.Open)).map
                  (fun i => i.risk_score * severityWeights i.severity)).sum /
                ((st.issues.filter
                  (fun i => i.container_id == containerId && i.status == IssueStatus.Open)).map
                    (fun i => severityWeights i.severity)).sum
              else 0))) =
      specOpenWeightedScore st.issues containerId := by
    unfold specOpenWeightedScore
    cases hempty : (st.issues.filter
        (fun i => i.container_id == containerId && i.status == IssueStatus.Open)).isEmpty with
    | true => simp only [hempty, if_true]
    | false =>
      simp only [hempty, Bool.false_eq_true, if_false]
      have hne : st.issues.filter
          (fun i => i.container_id == containerId && i.status == IssueStatus.Open) ≠ [] := by
        intro hnil
        rw [hnil] at hempty
        simp at hempty
      have hpos := sum_weights_pos _ hne
      rw [if_pos hpos, round2_eq_specRound2]
      rfl
  constructor
  · show (updateContainerRiskScore containerId st now).2 = _
    unfold updateContainerRiskScore
    rw [hfind]
    simp only
    rw [hscore]
  · unfold updateContainerRiskScore
    rw [hfind]
    simp only
    have hmap := find_update_containers st.containers containerId
      (fun c0 => { c0 with
        risk_score :=
          (if (st.issues.filter
              (fun i => i.container_id == containerId && i.status == IssueStatus.Open)).isEmpty
            then (0 : ℚ)
            else
              min 100 (round2
                (if 0 < ((st.issues.filter
                    (fun i => i.container_id == containerId && i.status == IssueStatus.Open)).map
                      (fun i => severityWeights i.severity)).sum
                  then ((st.issues.filter
                    (fun i => i.container_id == containerId && i.status == IssueStatus.Open)).map
                      (fun i => i.risk_score * severityWeights i.severity)).sum /
                    ((st.issues.filter
                      (fun i => i.container_id == containerId && i.status == IssueStatus.Open)).map
                        (fun i => severityWeights i.severity)).sum
                  else 0)))
        updated_at := now }) (fun c0 => rfl)
    have hfind2 : List.find? (fun c0 => c0.id == containerId) st.containers = some c := hfind
    unfold findContainer
    rw [hmap, hfind2]
    show some _ = some _
    rw [hscore]

/-- Claim C2, witness: recomputing container 1 of the fixture store returns
the row with the spec score of its open issues and refreshed timestamp. -/
theorem c2_witness :
    (updateContainerRiskScore 1 baseDB 5).2 =
      Except.ok { baseContainer with
        risk_score := specOpenWeightedScore baseDB.issues 1, updated_at := 5 } ∧
    findContainer (updateContainerRiskScore 1 baseDB 5).1 1 =
      some { baseContainer with
        risk_score := specOpenWeightedScore baseDB.issues 1, updated_at := 5 } :=
  c2_theorem 1 baseDB 5 baseContainer rfl

theorem activeViolationRel_iff (a b : SecurityViolation) :
    activeViolationRel a b ↔
      (sevRank a.severity < sevRank b.severity ∨
        (sevRank a.severity = sevRank b.severity ∧ b.created_at ≤ a.created_at)) := by
  unfold activeViolationRel
  rw [Prod.Lex.le_iff]
  simp [neg_le_neg_iff]

/-- Claim C8: `getActiveSecurityViolations` returns exactly the violations
whose status is Open or In-progress (a permutation of that filter, hence
membership is the OR of exactly these two statuses and every other status
is excluded), ordered by severity rank Critical before High before Medium
before Low, and by descending creation time within equal severity. -/
theorem c8_theorem (st : DB) :
    (getActiveSecurityViolations st).Perm
      (st.violations.filter
        (fun v => v.status == IssueStatus.Open || v.status == IssueStatus.InProgress)) ∧
    (∀ v, v ∈ getActiveSecurityViolations st ↔
      (v ∈ st.violations ∧
        (v.status = IssueStatus.Open ∨ v.status = IssueStatus.InProgress))) ∧
    (getActiveSecurityViolations st).Sorted (fun a b =>
      sevRank a.severity < sevRank b.severity ∨
        (sevRank a.severity = sevRank b.severity ∧ b.created_at ≤ a.created_at)) := by
  have hperm := List.perm_insertionSort activeViolationRel
    (st.violations.filter
      (fun v => v.status == IssueStatus.Open || v.status == IssueStatus.InProgress))
  refine ⟨hperm, ?_, ?_⟩
  · intro v
    rw [show (v ∈ getActiveSecurityViolations st) ↔
        v ∈ st.violations.filter
          (fun v => v.status == IssueStatus.Open || v.status == IssueStatus.InProgress) from
      hperm.mem_iff]
    rw [List.mem_filter]
    simp
  · have hs := List.sorted_insertionSort activeViolationRel
      (st.violations.filter
        (fun v => v.status == IssueStatus.Open || v.status == IssueStatus.InProgress))
    exact hs.imp (fun h => (activeViolationRel_iff _ _).mp h)

theorem count_severities_eq_length (l : List SecurityIssue) :
    l.countP (fun i => i.severity == Severity.Critical) +
    l.countP (fun i => i.severity == Severity.High) +
    l.countP (fun i => i.severity == Severity.Medium) +
    l.countP (fun i => i.severity == Severity.Low) = l.length := by
  induction l with
  | nil => rfl
  | cons a t ih =>
    simp only [List.countP_cons, List.length_cons]
    cases ha : a.severity <;> simp [ha] <;> omega

/-- Claim C9: the no-argument dashboard call returns the total issue
count, per-severity counts, open issues as Open plus In-progress, resolved
issues as Closed plus Resolved, the arithmetic mean of all issue risk
scores (0 when there is none), the top 5 containers ranked descending by
mean issue risk score with id, name, score and issue count, the violations
whose incident date falls within the inclusive 30-day window ordered
newest first and capped at 10, and coverage counts over active controls
only. -/
theorem c9_theorem (st : DB) (now : ℤ) :
    (getDashboardAnalytics st now).total_issues = st.issues.length ∧
    (getDashboardAnalytics st now).critical_issues =
      st.issues.countP (fun i => i.severity == Severity.Critical) ∧
    (getDashboardAnalytics st now).high_issues =
      st.issues.countP (fun i => i.severity == Severity.High) ∧
    (getDashboardAnalytics st now).medium_issues =
      st.issues.countP (fun i => i.severity == Severity.Medium) ∧
    (getDashboardAnalytics st now).low_issues =
      st.issues.countP (fun i => i.severity == Severity.Low) ∧
    (getDashboardAnalytics st now).open_issues =
      st.issues.countP (fun i => i.status == IssueStatus.Open) +
        st.issues.countP (fun i => i.status == IssueStatus.InProgress) ∧
    (getDashboardAnalytics st now).resolved_issues =
      st.issues.countP (fun i => i.status == IssueStatus.Closed) +
        st.issues.countP (fun i => i.status == IssueStatus.Resolved) ∧
    (getDashboardAnalytics st now).average_risk_score =
      (if st.issues.isEmpty then (0 : ℚ)
        else (st.issues.map (fun i => i.risk_score)).sum / (st.issues.length : ℚ)) ∧
    (∃ ranked : List Container,
      ranked.Perm (st.containers.filter (fun c => !(issuesOf st.issues c.id).isEmpty)) ∧
      ranked.Sorted (fun a b => meanRisk st.issues b.id ≤ meanRisk st.issues a.id) ∧
      (getDashboardAnalytics st now).top_risk_containers = (ranked.take 5).map (fun c =>
        { container_id := c.id
          container_name := c.name
          risk_score := meanRisk st.issues c.id
          issue_count := (issuesOf st.issues c.id).length })) ∧
    (∃ sortedRecent : List SecurityViolation,
      sortedRecent.Perm (st.violations.filter (fun v => decide (now - 30 ≤ v.incident_date))) ∧
      sortedRecent.Sorted (fun a b => b.created_at ≤ a.created_at) ∧
      (getDashboardAnalytics st now).recent_violations = (sortedRecent.take 10).map (fun v =>
        { id := v.id, title := v.title, severity := v.severity, created_at := v.created_at })) ∧
    (getDashboardAnalytics st now).control_coverage_existing =
      (st.controls.filter (fun c => c.is_active)).countP
        (fun c => c.implementation_status == ControlStatus.Existing) ∧
    (getDashboardAnalytics st now).control_coverage_planned =
      (st.controls.filter (fun c => c.is_active)).countP
        (fun c => c.implementation_status == ControlStatus.Planned) ∧
    (getDashboardAnalytics st now).control_coverage_not_specified =
      (st.controls.filter (fun c => c.is_active)).countP
        (fun c => c.implementation_status == ControlStatus.NotSpecified) := by
  refine ⟨count_severities_eq_length st.issues, rfl, rfl, rfl, rfl, rfl, rfl, rfl, ?_, ?_,
    rfl, rfl, rfl⟩
  · refine ⟨List.insertionSort (topContainerRel st.issues)
      (st.containers.filter (fun c => !(issuesOf st.issues c.id).isEmpty)), ?_, ?_, rfl⟩
    · exact List.perm_insertionSort _ _
    · exact List.sorted_insertionSort (topContainerRel st.issues) _
  · refine ⟨List.insertionSort recentViolationRel
      (st.violations.filter (fun v => decide (now - 30 ≤ v.incident_date))), ?_, ?_, rfl⟩
    · exact List.perm_insertionSort _ _
    · exact List.sorted_insertionSort recentViolationRel _
